import Mathlib

/-
  Shallow embedding of the packet transport and command sender of the
  Cypherock communication module.

  The embedded source functions are writePacket and sendData from the
  core file, together with the DeviceErrorType enumeration from
  src/errors/index.ts.  The connection, the encoder and the per version
  config tables are external collaborators of the repository and are
  represented by parameters: the command code table is a pair of ACK and
  NACK wire codes, the encoder output is abstracted by the number of
  packets it produces, and the connection is abstracted by the event
  trace it delivers to one writePacket invocation and by the outcome it
  gives to each write attempt of sendData.  Logging is a passive side
  channel and is dropped.
-/

namespace CySync

/-- Error kinds of the DeviceErrorType enumeration in src/errors/index.ts. -/
inductive DeviceErrorType where
  | NOT_CONNECTED
  | DEVICE_DISCONNECTED_IN_FLOW
  | CONNECTION_CLOSED
  | CONNECTION_NOT_OPEN
  | WRITE_ERROR
  | TIMEOUT_ERROR
  | WRITE_TIMEOUT
  | READ_TIMEOUT
  | FIRMWARE_SIZE_LIMIT_EXCEEDED
  | WRONG_FIRMWARE_VERSION
  | WRONG_HARDWARE_VERSION
  | WRONG_MAGIC_NUMBER
  | SIGNATURE_NOT_VERIFIED
  | LOWER_FIRMWARE_VERSION
  | NO_WORKING_PACKET_VERSION
  | UNKNOWN_COMMUNICATION_ERROR
  deriving DecidableEq, Repr

/-- Packet protocol versions from the PacketVersionMap of the utils module. -/
inductive PacketVersion where
  | v1
  | v2
  deriving DecidableEq, Repr

/-- Command code table resolved by writePacket: the ACK and NACK wire codes.
The concrete values live in the external config module, so the table is a
parameter of the embedding. -/
structure UsableCommands where
  ACK_PACKET : Nat
  NACK_PACKET : Nat
  deriving DecidableEq, Repr

/-- Settlement of the writePacket promise: resolve, or reject with a
DeviceError of the given kind. -/
inductive WPOutcome where
  | success
  | failure (e : DeviceErrorType)
  deriving DecidableEq, Repr

/-- Events that can reach one writePacket invocation after the promise
executor has run: an ack notification carrying a command code, a close
notification carrying whether an error value accompanied it, a failure of
the asynchronous write, and expiry of the acknowledgment timer. -/
inductive WPEvent where
  | ack (commandType : Nat)
  | close (hasErr : Bool)
  | writeFail
  | timerFire
  deriving DecidableEq, Repr

/-- State of one writePacket invocation: the promise settlement, whether
the ack and the close listeners are registered on the connection, and
whether the timeout timer is still pending. clearTimeout and firing both
make timerActive false. -/
structure WPState where
  settled : Option WPOutcome
  ackListener : Bool
  closeListener : Bool
  timerActive : Bool
  deriving DecidableEq, Repr

/-- Settling the promise: the first resolve or reject wins and every later
one is a no-op, as for a JavaScript promise. -/
def settle (s : WPState) (o : WPOutcome) : WPState :=
  match s.settled with
  | some _ => s
  | none => { s with settled := some o }

/-- Delivery of one event to a writePacket invocation, mirroring the
dataListener, the onClose handler, the catch handler of the write and the
setTimeout callback of the source.  A connection listener runs only while
it is registered and the timer fires only while it is pending; the catch
handler of the write promise is not a connection listener and is never
deregistered.  The dataListener of the source clears the timeout and
removes both listeners before inspecting the command code, so an ack whose
code matches neither ACK_PACKET nor NACK_PACKET tears the triggers down
without settling. -/
def wpStep (cmds : UsableCommands) (s : WPState) (e : WPEvent) : WPState :=
  match e with
  | .ack commandType =>
    if s.ackListener then
      let t : WPState :=
        { s with timerActive := false, ackListener := false, closeListener := false }
      if commandType = cmds.ACK_PACKET then settle t .success
      else if commandType = cmds.NACK_PACKET then settle t (.failure .WRITE_ERROR)
      else t
    else s
  | .close _hasErr =>
    if s.closeListener then
      let t : WPState :=
        { s with timerActive := false, ackListener := false, closeListener := false }
      settle t (.failure .CONNECTION_CLOSED)
    else s
  | .writeFail =>
    let t : WPState :=
      { s with timerActive := false, ackListener := false, closeListener := false }
    settle t (.failure .WRITE_ERROR)
  | .timerFire =>
    if s.timerActive then
      let t : WPState :=
        { s with timerActive := false, ackListener := false, closeListener := false }
      settle t (.failure .WRITE_TIMEOUT)
    else s

/-- State right after the promise executor of writePacket has run: both
listeners registered, the timer started, nothing settled. -/
def wpInit : WPState :=
  { settled := none, ackListener := true, closeListener := true, timerActive := true }

/-- Processing of the events of one writePacket invocation in arrival
order. -/
def wpRun (cmds : UsableCommands) (events : List WPEvent) : WPState :=
  List.foldl (wpStep cmds) wpInit events

/-- Top level of writePacket.  The source first resolves the constants
table for the version (the table only sizes the acknowledgment timer,
which the timerFire event abstracts), then throws CONNECTION_CLOSED before
creating the promise when the connection reports not connected; otherwise
the executor registers the listeners, issues exactly one write and starts
the timer, after which the invocation is driven by the event trace.  The
result pairs the thrown error or final promise state with the number of
writes issued on the connection.  The packet argument is an opaque blob
with no semantic role and is omitted. -/
def writePacket (cmds : UsableCommands) (_version : PacketVersion)
    (isConnected : Bool) (events : List WPEvent) :
    Except DeviceErrorType WPState × Nat :=
  if isConnected then (.ok (wpRun cmds events), 1)
  else (.error .CONNECTION_CLOSED, 0)

/-- Outcome of one writePacket attempt as seen by the retry loop of
sendData: the promise resolved, or rejected with a DeviceError kind. -/
inductive AttemptResult where
  | success
  | failure (e : DeviceErrorType)
  deriving DecidableEq, Repr

/-- Connection fatal kinds: the retry loop of sendData stops early when a
caught DeviceError has one of these kinds. -/
def isFatal (e : DeviceErrorType) : Bool :=
  match e with
  | .CONNECTION_CLOSED => true
  | .CONNECTION_NOT_OPEN => true
  | .NOT_CONNECTED => true
  | _ => false

/-- Result of the per packet closure of sendData: the settlement of its
promise and the number of writePacket attempts it made. -/
structure PacketSendResult where
  outcome : Except DeviceErrorType Unit
  attempts : Nat
  deriving Repr

/-- Retry loop of the per packet closure of sendData.  The source loops
while tries is at most _maxTries: a successful writePacket resolves; a
caught connection fatal DeviceError sets tries to _maxTries so that the
increment exits the loop; the first error across attempts is recorded in
firstError; when the loop exits without success the recorded first error
is rejected, falling back to a generic WRITE_TIMEOUT when none was
recorded.  The while loop is modelled by recursion on the remaining
budget, which is _maxTries + 1 - tries, and att j is the outcome of the
attempt whose counter value is j. -/
def sendPacketLoop (att : Nat → AttemptResult) :
    Nat → Nat → Option DeviceErrorType → PacketSendResult
  | _tries, 0, firstError =>
    ⟨.error (firstError.getD .WRITE_TIMEOUT), 0⟩
  | tries, remaining + 1, firstError =>
    match att tries with
    | .success => ⟨.ok (), 1⟩
    | .failure e =>
      if isFatal e then ⟨.error (firstError.getD e), 1⟩
      else
        ⟨(sendPacketLoop att (tries + 1) remaining (some (firstError.getD e))).outcome,
          (sendPacketLoop att (tries + 1) remaining (some (firstError.getD e))).attempts + 1⟩

/-- One entry of the dataList of sendData: the self contained closure for a
single packet.  It forces the local try budget to one when the command is
the reserved value 255 and otherwise uses maxTries, then runs the retry
loop with the counter starting at one and no recorded error. -/
def packetSender (att : Nat → AttemptResult) (command maxTries : Nat) :
    PacketSendResult :=
  sendPacketLoop att 1 (if command = 255 then 1 else maxTries) none

/-- Sequential for loop of sendData over the dataList: it awaits each
packet promise strictly in order, and on a rejection rethrows the error so
that no later packet is started.  The result pairs the overall outcome
with the trace of processed packets, each as its index paired with the
number of write attempts made for it. -/
def sendDataLoop (send1 : Nat → PacketSendResult) :
    Nat → Nat → Except DeviceErrorType Unit × List (Nat × Nat)
  | _idx, 0 => (.ok (), [])
  | idx, n + 1 =>
    match (send1 idx).outcome with
    | .ok _ =>
      ((sendDataLoop send1 (idx + 1) n).1,
        (idx, (send1 idx).attempts) :: (sendDataLoop send1 (idx + 1) n).2)
    | .error e => (.error e, [(idx, (send1 idx).attempts)])

/-- sendData: the encoder, an external pure collaborator, turns the payload
into an ordered packet list, abstracted here by numPackets, its length;
sendData builds the per packet closures and drives them strictly in order.
att i j is the outcome of attempt j of packet i.  The source defaults
maxTries to 5; claims pass it explicitly. -/
def sendData (att : Nat → Nat → AttemptResult) (command numPackets maxTries : Nat) :
    Except DeviceErrorType Unit × List (Nat × Nat) :=
  sendDataLoop (fun i => packetSender (att i) command maxTries) 0 numPackets

/-
  Invariant machinery for the writePacket state machine.
-/

/-- Cleanliness of a writePacket state: once the promise is settled, both
listeners are removed and the timer is no longer pending. -/
def wpClean (s : WPState) : Prop :=
  s.settled.isSome = true →
    s.ackListener = false ∧ s.closeListener = false ∧ s.timerActive = false

theorem settle_ackListener (s : WPState) (o : WPOutcome) :
    (settle s o).ackListener = s.ackListener := by
  unfold settle
  cases s.settled <;> rfl

theorem settle_closeListener (s : WPState) (o : WPOutcome) :
    (settle s o).closeListener = s.closeListener := by
  unfold settle
  cases s.settled <;> rfl

theorem settle_timerActive (s : WPState) (o : WPOutcome) :
    (settle s o).timerActive = s.timerActive := by
  unfold settle
  cases s.settled <;> rfl

theorem wpStep_clean (cmds : UsableCommands) (s : WPState) (e : WPEvent)
    (h : wpClean s) : wpClean (wpStep cmds s e) := by
  cases e with
  | ack c =>
    by_cases ha : s.ackListener = true
    · simp only [wpStep, ha, if_true]
      by_cases h1 : c = cmds.ACK_PACKET
      · simp only [h1, if_true]
        intro _
        refine ⟨?_, ?_, ?_⟩
        · rw [settle_ackListener]
        · rw [settle_closeListener]
        · rw [settle_timerActive]
      · simp only [h1, if_false]
        by_cases h2 : c = cmds.NACK_PACKET
        · simp only [h2, if_true]
          intro _
          refine ⟨?_, ?_, ?_⟩
          · rw [settle_ackListener]
          · rw [settle_closeListener]
          · rw [settle_timerActive]
        · simp only [h2, if_false]
          intro _
          exact ⟨rfl, rfl, rfl⟩
    · simp only [wpStep, ha, if_false]
      exact h
  | close hasErr =>
    by_cases hc : s.closeListener = true
    · simp only [wpStep, hc, if_true]
      intro _
      refine ⟨?_, ?_, ?_⟩
      · rw [settle_ackListener]
      · rw [settle_closeListener]
      · rw [settle_timerActive]
    · simp only [wpStep, hc, if_false]
      exact h
  | writeFail =>
    simp only [wpStep]
    intro _
    refine ⟨?_, ?_, ?_⟩
    · rw [settle_ackListener]
    · rw [settle_closeListener]
    · rw [settle_timerActive]
  | timerFire =>
    by_cases ht : s.timerActive = true
    · simp only [wpStep, ht, if_true]
      intro _
      refine ⟨?_, ?_, ?_⟩
      · rw [settle_ackListener]
      · rw [settle_closeListener]
      · rw [settle_timerActive]
    · simp only [wpStep, ht, if_false]
      exact h

theorem wpStep_settled_noop (cmds : UsableCommands) (s : WPState) (e : WPEvent)
    (hs : s.settled.isSome = true) (h : wpClean s) : wpStep cmds s e = s := by
  obtain ⟨ha, hc, ht⟩ := h hs
  obtain ⟨st, a, c, t⟩ := s
  simp only at ha hc ht
  subst ha; subst hc; subst ht
  obtain ⟨o, rfl⟩ : ∃ o, st = some o := by
    cases st with
    | none => simp at hs
    | some o => exact ⟨o, rfl⟩
  cases e with
  | ack cc => rfl
  | close hasErr => rfl
  | writeFail => rfl
  | timerFire => rfl

theorem wpFoldl_clean (cmds : UsableCommands) (s : WPState) (h : wpClean s) :
    ∀ es : List WPEvent, wpClean (List.foldl (wpStep cmds) s es) := by
  intro es
  induction es generalizing s with
  | nil => exact h
  | cons e es ih =>
    rw [List.foldl_cons]
    exact ih _ (wpStep_clean cmds s e h)

theorem wpRun_clean (cmds : UsableCommands) (es : List WPEvent) :
    wpClean (wpRun cmds es) := by
  unfold wpRun
  refine wpFoldl_clean cmds wpInit ?_ es
  intro h
  simp [wpInit] at h

theorem wpFoldl_settled_noop (cmds : UsableCommands) (s : WPState)
    (hs : s.settled.isSome = true) (h : wpClean s) :
    ∀ es : List WPEvent, List.foldl (wpStep cmds) s es = s := by
  intro es
  induction es with
  | nil => rfl
  | cons e es ih =>
    rw [List.foldl_cons, wpStep_settled_noop cmds s e hs h]
    exact ih

/-
  Claim theorems about writePacket.
-/

/-- C1: on a connected writePacket invocation whose acknowledgment carries a
command code that is neither the ACK code nor the NACK code of the resolved
table (here ACK is 1 and NACK is 7, and the code received is 5), the
dataListener has already cleared the acknowledgment timer and removed both
listeners before inspecting the code, so the invocation never settles: the
state after the unknown acknowledgment has no trigger left, and even a
subsequent timer expiry, a genuine ACK and a close notification leave it
pending, instead of rejecting with kind WRITE_TIMEOUT when the timer
expires as the claim states. -/
theorem writePacket_unknownAck_hangs :
    (wpRun ⟨1, 7⟩ [.ack 5]).settled = none ∧
    (wpRun ⟨1, 7⟩ [.ack 5]).ackListener = false ∧
    (wpRun ⟨1, 7⟩ [.ack 5]).closeListener = false ∧
    (wpRun ⟨1, 7⟩ [.ack 5]).timerActive = false ∧
    (wpRun ⟨1, 7⟩ [.ack 5, .timerFire, .ack 1, .close true]).settled = none := by
  decide

/-- C2 counterexample: an invocation of writePacket in which an ack type
notification is the first of the four events to fire, yet no outcome is
ever produced: with table ACK 4, NACK 8 and an acknowledgment carrying
code 0, after the firing the invocation is unsettled and both observers
and the timer are gone, so nothing can ever settle it, refuting that every
invocation produces exactly one outcome settled by the first firing. -/
theorem writePacket_zero_outcome_cex :
    (wpRun ⟨4, 8⟩ [.ack 0]).settled = none ∧
    (wpRun ⟨4, 8⟩ [.ack 0]).ackListener = false ∧
    (wpRun ⟨4, 8⟩ [.ack 0]).closeListener = false ∧
    (wpRun ⟨4, 8⟩ [.ack 0]).timerActive = false := by
  decide

/-- C2 (amended): every invocation of writePacket settles at most once:
whenever the event trace has settled the invocation, both observers are
deregistered and the timer is cancelled, and any later events, for example
a late acknowledgment after the timeout or a second close, are no-ops that
leave the whole state, and in particular the outcome, unchanged.  An ack
notification with an unrecognized command code also deregisters the
observers and cancels the timer, but without settling, so an invocation
can produce zero outcomes. -/
theorem writePacket_settle_once (cmds : UsableCommands) (es es2 : List WPEvent)
    (h : (wpRun cmds es).settled.isSome = true) :
    wpRun cmds (es ++ es2) = wpRun cmds es ∧
    (wpRun cmds es).ackListener = false ∧
    (wpRun cmds es).closeListener = false ∧
    (wpRun cmds es).timerActive = false := by
  have hclean := wpRun_clean cmds es
  obtain ⟨ha, hc, ht⟩ := hclean h
  refine ⟨?_, ha, hc, ht⟩
  unfold wpRun
  rw [List.foldl_append]
  exact wpFoldl_settled_noop cmds _ h (wpRun_clean cmds es) es2

/-- Witness for writePacket_settle_once: after a timer expiry has settled
the invocation with WRITE_TIMEOUT, a late genuine ACK and a close
notification change nothing. -/
theorem writePacket_settle_once_witness :
    wpRun ⟨1, 7⟩ ([WPEvent.timerFire] ++ [WPEvent.ack 1, WPEvent.close true]) =
      wpRun ⟨1, 7⟩ [WPEvent.timerFire] ∧
    (wpRun ⟨1, 7⟩ [WPEvent.timerFire]).ackListener = false ∧
    (wpRun ⟨1, 7⟩ [WPEvent.timerFire]).closeListener = false ∧
    (wpRun ⟨1, 7⟩ [WPEvent.timerFire]).timerActive = false :=
  writePacket_settle_once ⟨1, 7⟩ [WPEvent.timerFire]
    [WPEvent.ack 1, WPEvent.close true] (by decide)

/-- C8: from a pending writePacket invocation with both listeners
registered, the failure kind is decided by the settling event: an
acknowledgment carrying the NACK code rejects with WRITE_ERROR and not a
timeout kind, a close notification rejects with CONNECTION_CLOSED whether
or not an error value accompanies it, and a failure of the asynchronous
write rejects with WRITE_ERROR after removing both listeners and clearing
the timer. -/
theorem writePacket_failure_kinds (cmds : UsableCommands) (s : WPState)
    (hasErr : Bool) (hpend : s.settled = none) (hack : s.ackListener = true)
    (hclose : s.closeListener = true) (hne : cmds.NACK_PACKET ≠ cmds.ACK_PACKET) :
    (wpStep cmds s (.ack cmds.NACK_PACKET)).settled =
      some (.failure .WRITE_ERROR) ∧
    (wpStep cmds s (.close hasErr)).settled =
      some (.failure .CONNECTION_CLOSED) ∧
    (wpStep cmds s .writeFail).settled = some (.failure .WRITE_ERROR) ∧
    (wpStep cmds s .writeFail).ackListener = false ∧
    (wpStep cmds s .writeFail).closeListener = false ∧
    (wpStep cmds s .writeFail).timerActive = false := by
  refine ⟨?_, ?_, ?_, ?_, ?_, ?_⟩
  · simp only [wpStep, hack, if_true, hne, if_false, if_pos rfl]
    simp [settle, hpend]
  · simp only [wpStep, hclose, if_true]
    simp [settle, hpend]
  · simp only [wpStep]
    simp [settle, hpend]
  · simp only [wpStep]
    rw [settle_ackListener]
  · simp only [wpStep]
    rw [settle_closeListener]
  · simp only [wpStep]
    rw [settle_timerActive]

/-- Witness for writePacket_failure_kinds at the initial state with table
ACK 1, NACK 7 and a close notification carrying no error value. -/
theorem writePacket_failure_kinds_witness :
    (wpStep ⟨1, 7⟩ wpInit (.ack 7)).settled =
      some (.failure .WRITE_ERROR) ∧
    (wpStep ⟨1, 7⟩ wpInit (.close false)).settled =
      some (.failure .CONNECTION_CLOSED) ∧
    (wpStep ⟨1, 7⟩ wpInit .writeFail).settled = some (.failure .WRITE_ERROR) ∧
    (wpStep ⟨1, 7⟩ wpInit .writeFail).ackListener = false ∧
    (wpStep ⟨1, 7⟩ wpInit .writeFail).closeListener = false ∧
    (wpStep ⟨1, 7⟩ wpInit .writeFail).timerActive = false :=
  writePacket_failure_kinds ⟨1, 7⟩ wpInit false rfl rfl rfl (by decide)

/-- C9: a writePacket call on a connection that reports not connected
throws CONNECTION_CLOSED before the promise is created, for every version
and command table: no write is issued on the connection and no listener or
timer is ever registered, since the promise executor never runs. -/
theorem writePacket_notConnected (cmds : UsableCommands)
    (version : PacketVersion) (events : List WPEvent) :
    writePacket cmds version false events = (.error .CONNECTION_CLOSED, 0) :=
  rfl

/-
  Helper lemmas about the retry loop and the packet loop of sendData.
-/

theorem PacketSendResult.eq_of_parts (r : PacketSendResult)
    (o : Except DeviceErrorType Unit) (a : Nat)
    (h1 : r.outcome = o) (h2 : r.attempts = a) : r = ⟨o, a⟩ := by
  cases r
  simp only at h1 h2
  rw [h1, h2]

/-- When every attempt inside the budget fails, the retry loop rejects
with the recorded first error, which is the error of the earliest attempt
it makes, or with the generic WRITE_TIMEOUT fallback when the budget
allows no attempt. -/
theorem sendPacketLoop_all_fail_outcome (att : Nat → AttemptResult)
    (err : Nat → DeviceErrorType) :
    ∀ remaining tries firstError,
      (∀ j, tries ≤ j → j < tries + remaining → att j = .failure (err j)) →
      (sendPacketLoop att tries remaining firstError).outcome =
        .error (match remaining with
          | 0 => firstError.getD .WRITE_TIMEOUT
          | _ + 1 => firstError.getD (err tries)) := by
  intro remaining
  induction remaining with
  | zero => intro tries fe _; rfl
  | succ r ih =>
    intro tries fe hfail
    show (sendPacketLoop att tries (r + 1) fe).outcome = _
    rw [sendPacketLoop, hfail tries (Nat.le_refl tries) (by omega)]
    by_cases hf : isFatal (err tries) = true
    · simp only [hf, if_true]
    · simp only [Bool.not_eq_true] at hf
      simp only [hf, Bool.false_eq_true, if_false]
      rw [ih (tries + 1) (some (fe.getD (err tries)))
        (fun j hj1 hj2 => hfail j (by omega) (by omega))]
      cases r <;> simp

/-- When every attempt inside the budget fails and none of those failures
is connection fatal, the retry loop exhausts its whole budget. -/
theorem sendPacketLoop_all_fail_attempts (att : Nat → AttemptResult)
    (err : Nat → DeviceErrorType) :
    ∀ remaining tries firstError,
      (∀ j, tries ≤ j → j < tries + remaining → att j = .failure (err j)) →
      (∀ j, tries ≤ j → j < tries + remaining → isFatal (err j) = false) →
      (sendPacketLoop att tries remaining firstError).attempts = remaining := by
  intro remaining
  induction remaining with
  | zero => intro tries fe _ _; rfl
  | succ r ih =>
    intro tries fe hfail hnf
    rw [sendPacketLoop, hfail tries (Nat.le_refl tries) (by omega)]
    simp only [hnf tries (Nat.le_refl tries) (by omega), Bool.false_eq_true,
      if_false]
    rw [ih (tries + 1) (some (fe.getD (err tries)))
      (fun j hj1 hj2 => hfail j (by omega) (by omega))
      (fun j hj1 hj2 => hnf j (by omega) (by omega))]

/-- The retry loop never makes more attempts than its remaining budget. -/
theorem sendPacketLoop_attempts_le (att : Nat → AttemptResult) :
    ∀ remaining tries firstError,
      (sendPacketLoop att tries remaining firstError).attempts ≤ remaining := by
  intro remaining
  induction remaining with
  | zero => intro tries fe; exact Nat.le_refl 0
  | succ r ih =>
    intro tries fe
    rw [sendPacketLoop]
    cases att tries with
    | success => exact Nat.succ_le_succ (Nat.zero_le r)
    | failure e =>
      by_cases hf : isFatal e = true
      · simp only [hf, if_true]
        exact Nat.succ_le_succ (Nat.zero_le r)
      · simp only [Bool.not_eq_true] at hf
        simp only [hf, Bool.false_eq_true, if_false]
        exact Nat.succ_le_succ (ih (tries + 1) (some (fe.getD e)))

/-- A connection fatal failure at attempt k, after attempts that all failed
non fatally, makes the retry loop stop at attempt k and reject with the
recorded first error of the earliest attempt. -/
theorem sendPacketLoop_fatal (att : Nat → AttemptResult)
    (err : Nat → DeviceErrorType) (k : Nat) (hf : isFatal (err k) = true) :
    ∀ remaining tries firstError,
      (∀ j, tries ≤ j → j ≤ k → att j = .failure (err j)) →
      (∀ j, tries ≤ j → j < k → isFatal (err j) = false) →
      tries ≤ k → k < tries + remaining →
      sendPacketLoop att tries remaining firstError =
        ⟨.error (firstError.getD (err tries)), k - tries + 1⟩ := by
  intro remaining
  induction remaining with
  | zero => intro tries fe _ _ h1 h2; omega
  | succ r ih =>
    intro tries fe hfail hnf h1 h2
    rw [sendPacketLoop, hfail tries (Nat.le_refl tries) h1]
    rcases Nat.eq_or_lt_of_le h1 with heq | hlt
    · rw [← heq] at hf
      simp only [hf, if_true, ← heq, Nat.sub_self]
    · have hnfat : isFatal (err tries) = false := hnf tries (Nat.le_refl tries) hlt
      simp only [hnfat, Bool.false_eq_true, if_false]
      rw [ih (tries + 1) (some (fe.getD (err tries)))
        (fun j hj1 hj2 => hfail j (Nat.le_of_succ_le hj1) hj2)
        (fun j hj1 hj2 => hnf j (Nat.le_of_succ_le hj1) hj2)
        hlt (by omega)]
      simp only [Option.getD_some]
      have : k - (tries + 1) + 1 + 1 = k - tries + 1 := by omega
      rw [this]

/-- Awaiting a packet whose closure rejects stops the for loop of sendData
at that packet. -/
theorem sendDataLoop_step_error (send1 : Nat → PacketSendResult) (idx n : Nat)
    (e : DeviceErrorType) (h : (send1 idx).outcome = .error e) :
    sendDataLoop send1 idx (n + 1) = (.error e, [(idx, (send1 idx).attempts)]) := by
  rw [sendDataLoop, h]

/-- Awaiting a packet whose closure resolves makes the for loop of sendData
continue with the next packet. -/
theorem sendDataLoop_step_ok (send1 : Nat → PacketSendResult) (idx n : Nat)
    (h : (send1 idx).outcome = .ok ()) :
    sendDataLoop send1 idx (n + 1) =
      ((sendDataLoop send1 (idx + 1) n).1,
        (idx, (send1 idx).attempts) :: (sendDataLoop send1 (idx + 1) n).2) := by
  rw [sendDataLoop, h]

/-- Every packet processed by the for loop of sendData makes at most b
write attempts when every closure is bounded by b. -/
theorem sendDataLoop_attempts_bound (send1 : Nat → PacketSendResult) (b : Nat)
    (hb : ∀ i, (send1 i).attempts ≤ b) :
    ∀ n idx p, p ∈ (sendDataLoop send1 idx n).2 → p.2 ≤ b := by
  intro n
  induction n with
  | zero =>
    intro idx p hp
    simp [sendDataLoop] at hp
  | succ n ih =>
    intro idx p hp
    cases hout : (send1 idx).outcome with
    | ok u =>
      cases u
      rw [sendDataLoop_step_ok send1 idx n hout] at hp
      simp only [List.mem_cons] at hp
      rcases hp with hp | hp
      · rw [hp]
        exact hb idx
      · exact ih (idx + 1) p hp
    | error e =>
      rw [sendDataLoop_step_error send1 idx n e hout] at hp
      simp only [List.mem_cons, List.not_mem_nil, or_false] at hp
      rw [hp]
      exact hb idx

/-- When the closure of the first packet rejects, sendData rethrows that
error and its trace stops at the first packet. -/
theorem sendData_first_packet_error (att : Nat → Nat → AttemptResult)
    (command maxTries n : Nat) (e : DeviceErrorType) (a : Nat)
    (h : packetSender (att 0) command maxTries = ⟨.error e, a⟩) :
    sendData att command (n + 1) maxTries = (.error e, [(0, a)]) := by
  unfold sendData
  rw [sendDataLoop_step_error (fun i => packetSender (att i) command maxTries) 0 n e
    (by show (packetSender (att 0) command maxTries).outcome = Except.error e; rw [h])]
  show (_, [(0, (packetSender (att 0) command maxTries).attempts)]) = _
  rw [h]

/-
  Claim theorems about sendData.
-/

/-- Attempt schedule for the C3 counterexample: the first attempt times
out, the second hits the connection fatal CONNECTION_CLOSED, and any
further attempt would succeed. -/
def attFatalSecond : Nat → AttemptResult := fun j =>
  if j = 1 then .failure .WRITE_TIMEOUT
  else if j = 2 then .failure .CONNECTION_CLOSED
  else .success

/-- C3 counterexample: with maxTries 5 and the schedule attFatalSecond,
the retry loop does stop at attempt 2, but the error propagated by
sendData is the first recorded WRITE_TIMEOUT of attempt 1, not the
connection fatal CONNECTION_CLOSED of attempt 2 as the claim states. -/
theorem sendData_fatal_error_cex :
    sendData (fun _ => attFatalSecond) 21 1 5 =
      (.error .WRITE_TIMEOUT, [(0, 2)]) ∧
    (sendData (fun _ => attFatalSecond) 21 1 5).1 ≠
      Except.error DeviceErrorType.CONNECTION_CLOSED := by
  refine ⟨rfl, ?_⟩
  intro h
  rw [show (sendData (fun _ => attFatalSecond) 21 1 5).1 =
    Except.error DeviceErrorType.WRITE_TIMEOUT from rfl] at h
  simp at h

/-- C3 (amended): when attempt k of a packet fails with a connection fatal
kind and every earlier attempt failed with a non fatal kind, sendData
makes no further attempt for that packet, no attempt for any later packet,
and propagates the first recorded error of the packet, which is the error
of attempt 1; the fatal error itself is propagated exactly when it was the
first failure. -/
theorem sendData_fatal_stops_retries (att : Nat → Nat → AttemptResult)
    (err : Nat → DeviceErrorType) (command maxTries n k : Nat) (hk : 1 ≤ k)
    (hle : k ≤ if command = 255 then 1 else maxTries)
    (hfail : ∀ j, 1 ≤ j → j ≤ k → att 0 j = .failure (err j))
    (hnf : ∀ j, 1 ≤ j → j < k → isFatal (err j) = false)
    (hf : isFatal (err k) = true) :
    sendData att command (n + 1) maxTries = (.error (err 1), [(0, k)]) := by
  have h := sendPacketLoop_fatal (att 0) err k hf
    (if command = 255 then 1 else maxTries) 1 none hfail hnf hk (by omega)
  have hps : packetSender (att 0) command maxTries = ⟨.error (err 1), k⟩ := by
    unfold packetSender
    rw [h]
    simp only [Option.getD_none]
    have hkk : k - 1 + 1 = k := by omega
    rw [hkk]
  exact sendData_first_packet_error att command maxTries n (err 1) k hps

/-- Witness for sendData_fatal_stops_retries: attempt 1 times out, attempt
2 closes the connection; sendData stops after two attempts and propagates
WRITE_TIMEOUT. -/
theorem sendData_fatal_stops_retries_witness :
    sendData (fun _ => attFatalSecond) 33 (0 + 1) 5 =
      (.error DeviceErrorType.WRITE_TIMEOUT, [(0, 2)]) :=
  sendData_fatal_stops_retries (fun _ => attFatalSecond)
    (fun j => if j = 2 then .CONNECTION_CLOSED else .WRITE_TIMEOUT) 33 5 0 2
    (by omega) (by simp)
    (by
      intro j h1 h2
      interval_cases j <;> rfl)
    (by
      intro j h1 h2
      interval_cases j
      rfl)
    rfl

/-- C5: when the command is not the reserved 255 and every write attempt of
every packet fails with WRITE_TIMEOUT, a sendData call with maxTries 5 and
at least one packet makes exactly 5 write attempts for the first packet
and then rejects with WRITE_TIMEOUT without attempting any later packet. -/
theorem sendData_timeout_five_attempts (att : Nat → Nat → AttemptResult)
    (command n : Nat) (hc : command ≠ 255)
    (h : ∀ i j, att i j = .failure .WRITE_TIMEOUT) :
    sendData att command (n + 1) 5 = (.error .WRITE_TIMEOUT, [(0, 5)]) := by
  have hout := sendPacketLoop_all_fail_outcome (att 0)
    (fun _ => .WRITE_TIMEOUT) 5 1 none (fun j _ _ => h 0 j)
  have hatt := sendPacketLoop_all_fail_attempts (att 0)
    (fun _ => .WRITE_TIMEOUT) 5 1 none (fun j _ _ => h 0 j) (fun _ _ _ => rfl)
  have hps : packetSender (att 0) command 5 =
      ⟨.error DeviceErrorType.WRITE_TIMEOUT, 5⟩ := by
    unfold packetSender
    rw [if_neg hc]
    exact PacketSendResult.eq_of_parts _ _ _ hout hatt
  exact sendData_first_packet_error att command 5 n _ _ hps

/-- Witness for sendData_timeout_five_attempts at command 21, one packet
and a connection that always times out. -/
theorem sendData_timeout_five_attempts_witness :
    sendData (fun _ _ => AttemptResult.failure DeviceErrorType.WRITE_TIMEOUT)
        21 (0 + 1) 5 =
      (.error DeviceErrorType.WRITE_TIMEOUT, [(0, 5)]) :=
  sendData_timeout_five_attempts _ 21 0 (by omega) (fun _ _ => rfl)

/-- C6: in every sendData call whose command is the reserved value 255, at
most one write attempt is made per packet, whatever the maxTries argument
and the attempt outcomes: every entry of the trace records at most one
attempt. -/
theorem sendData_command255_single_attempt (att : Nat → Nat → AttemptResult)
    (numPackets maxTries : Nat) (p : Nat × Nat)
    (hp : p ∈ (sendData att 255 numPackets maxTries).2) : p.2 ≤ 1 := by
  unfold sendData at hp
  refine sendDataLoop_attempts_bound (fun i => packetSender (att i) 255 maxTries)
    1 (fun i => ?_) numPackets 0 p hp
  show (packetSender (att i) 255 maxTries).attempts ≤ 1
  unfold packetSender
  rw [if_pos rfl]
  exact sendPacketLoop_attempts_le (att i) 1 1 none

/-- Witness for sendData_command255_single_attempt: one packet whose single
attempt succeeds, with maxTries 4 ignored. -/
theorem sendData_command255_single_attempt_witness :
    ((0, 1) : Nat × Nat).2 ≤ 1 :=
  sendData_command255_single_attempt (fun _ _ => AttemptResult.success) 1 4
    (0, 1) (by decide)

/-- C7: when every attempt for the first packet fails, sendData propagates
the first recorded error, the error of attempt 1, even when later attempts
fail differently; when no error could be recorded because the effective
try budget is zero, it falls back to a generic WRITE_TIMEOUT. -/
theorem sendData_first_error_propagated (att : Nat → Nat → AttemptResult)
    (err : Nat → DeviceErrorType) (command maxTries n : Nat)
    (hfail : ∀ j, 1 ≤ j → j ≤ (if command = 255 then 1 else maxTries) →
      att 0 j = .failure (err j)) :
    (sendData att command (n + 1) maxTries).1 =
      .error (if (if command = 255 then 1 else maxTries) = 0
        then DeviceErrorType.WRITE_TIMEOUT else err 1) := by
  have hE : (packetSender (att 0) command maxTries).outcome =
      Except.error (if (if command = 255 then 1 else maxTries) = 0
        then DeviceErrorType.WRITE_TIMEOUT else err 1) := by
    unfold packetSender
    cases hmt : (if command = 255 then 1 else maxTries) with
    | zero => rfl
    | succ m =>
      exact sendPacketLoop_all_fail_outcome (att 0) err (m + 1) 1 none
        (fun j hj1 hj2 => hfail j hj1 (by rw [hmt]; omega))
  unfold sendData
  rw [sendDataLoop_step_error (fun i => packetSender (att i) command maxTries)
    0 n _ (by exact hE)]

/-- Witness for sendData_first_error_propagated: every attempt fails with
WRITE_ERROR; with command 21 and maxTries 3 the propagated error is the
first WRITE_ERROR. -/
theorem sendData_first_error_propagated_witness :
    (sendData (fun _ _ => AttemptResult.failure DeviceErrorType.WRITE_ERROR)
        21 (0 + 1) 3).1 =
      Except.error DeviceErrorType.WRITE_ERROR :=
  sendData_first_error_propagated _ (fun _ => DeviceErrorType.WRITE_ERROR)
    21 3 0 (fun _ _ _ => rfl)

/-- C10: a sendData call for which the encoder produces an empty packet
list resolves with overall success and an empty trace: no write is ever
issued on the connection. -/
theorem sendData_empty_packets (att : Nat → Nat → AttemptResult)
    (command maxTries : Nat) :
    sendData att command 0 maxTries = (.ok (), []) :=
  rfl

/-
  Ordering lemmas for the for loop of sendData.
-/

/-- The packet indices of the trace of the for loop are consecutive,
starting at the loop start index: packets are processed in encoder order
with no skips. -/
theorem sendDataLoop_map_fst (send1 : Nat → PacketSendResult) :
    ∀ n idx, (sendDataLoop send1 idx n).2.map Prod.fst =
      List.range' idx (sendDataLoop send1 idx n).2.length := by
  intro n
  induction n with
  | zero => intro idx; rfl
  | succ n ih =>
    intro idx
    cases hout : (send1 idx).outcome with
    | ok u =>
      cases u
      rw [sendDataLoop_step_ok send1 idx n hout]
      simp only [List.map_cons, List.length_cons]
      rw [List.range'_succ idx _ 1]
      rw [ih (idx + 1)]
    | error e =>
      rw [sendDataLoop_step_error send1 idx n e hout]
      rfl

/-- The for loop of sendData processes at most the packets it was given. -/
theorem sendDataLoop_length_le (send1 : Nat → PacketSendResult) :
    ∀ n idx, (sendDataLoop send1 idx n).2.length ≤ n := by
  intro n
  induction n with
  | zero => intro idx; exact Nat.le_refl 0
  | succ n ih =>
    intro idx
    cases hout : (send1 idx).outcome with
    | ok u =>
      cases u
      rw [sendDataLoop_step_ok send1 idx n hout]
      exact Nat.succ_le_succ (ih (idx + 1))
    | error e =>
      rw [sendDataLoop_step_error send1 idx n e hout]
      exact Nat.succ_le_succ (Nat.zero_le n)

/-- When the for loop of sendData resolves, every given packet was
processed. -/
theorem sendDataLoop_ok_length (send1 : Nat → PacketSendResult) :
    ∀ n idx, (sendDataLoop send1 idx n).1 = .ok () →
      (sendDataLoop send1 idx n).2.length = n := by
  intro n
  induction n with
  | zero => intro idx _; rfl
  | succ n ih =>
    intro idx hok
    cases hout : (send1 idx).outcome with
    | ok u =>
      cases u
      rw [sendDataLoop_step_ok send1 idx n hout] at hok ⊢
      simp only [List.length_cons]
      rw [ih (idx + 1) hok]
    | error e =>
      rw [sendDataLoop_step_error send1 idx n e hout] at hok
      simp at hok

/-- When the for loop of sendData rejects, its trace is nonempty, the last
processed packet is the one whose closure rejected with that error, and no
later packet appears in the trace. -/
theorem sendDataLoop_error_last (send1 : Nat → PacketSendResult) :
    ∀ n idx e, (sendDataLoop send1 idx n).1 = .error e →
      0 < (sendDataLoop send1 idx n).2.length ∧
      (send1 (idx + (sendDataLoop send1 idx n).2.length - 1)).outcome =
        Except.error e := by
  intro n
  induction n with
  | zero =>
    intro idx e h
    simp [sendDataLoop] at h
  | succ n ih =>
    intro idx e h
    cases hout : (send1 idx).outcome with
    | ok u =>
      cases u
      rw [sendDataLoop_step_ok send1 idx n hout] at h ⊢
      obtain ⟨hpos, hlast⟩ := ih (idx + 1) e h
      simp only [List.length_cons]
      refine ⟨Nat.succ_pos _, ?_⟩
      have harith : idx + ((sendDataLoop send1 (idx + 1) n).2.length + 1) - 1 =
          idx + 1 + (sendDataLoop send1 (idx + 1) n).2.length - 1 := by omega
      rw [harith]
      exact hlast
    | error e0 =>
      rw [sendDataLoop_step_error send1 idx n e0 hout] at h ⊢
      simp only at h
      cases h
      refine ⟨Nat.one_pos, ?_⟩
      simpa using hout

/-- C4: in every sendData call the packet indices of the trace are exactly
the first packets of the encoder output in encoder order, never more
packets than the encoder produced; the loop awaits each packet before
starting the next, so the trace order is the write order; on overall
success every packet was processed, and on a rejection the last processed
packet is the one whose closure rejected with the propagated error, so no
write is attempted for any packet after the first failing one. -/
theorem sendData_sequential_prefix (att : Nat → Nat → AttemptResult)
    (command numPackets maxTries : Nat) :
    (sendData att command numPackets maxTries).2.map Prod.fst =
      List.range (sendData att command numPackets maxTries).2.length ∧
    (sendData att command numPackets maxTries).2.length ≤ numPackets ∧
    (match (sendData att command numPackets maxTries).1 with
      | .ok _ =>
        (sendData att command numPackets maxTries).2.length = numPackets
      | .error e =>
        0 < (sendData att command numPackets maxTries).2.length ∧
        (packetSender
            (att ((sendData att command numPackets maxTries).2.length - 1))
            command maxTries).outcome = Except.error e) := by
  refine ⟨?_, ?_, ?_⟩
  · rw [List.range_eq_range']
    exact sendDataLoop_map_fst (fun i => packetSender (att i) command maxTries)
      numPackets 0
  · exact sendDataLoop_length_le (fun i => packetSender (att i) command maxTries)
      numPackets 0
  · cases h : (sendData att command numPackets maxTries).1 with
    | ok u =>
      cases u
      exact sendDataLoop_ok_length
        (fun i => packetSender (att i) command maxTries) numPackets 0 h
    | error e =>
      obtain ⟨h1, h2⟩ := sendDataLoop_error_last
        (fun i => packetSender (att i) command maxTries) numPackets 0 e h
      refine ⟨h1, ?_⟩
      simp only [Nat.zero_add] at h2
      exact h2

end CySync
